import Mathlib

/-!
Shallow embedding of `src/video/out/opengl/hwdec_drmprime_wayland.c`
(the mpv `drmprime-wayland` hardware-overlay driver).

The driver marshals an FFmpeg `AVDRMFrameDescriptor` into
`zwp_linux_dmabuf_v1` buffer-creation requests and attaches the resulting
`wl_buffer` to a dedicated video (sub)surface.  We model the Wayland
connection as a trace of issued protocol requests plus an oracle (`Server`)
giving the outcome of each blocking `wl_display_roundtrip` buffer creation
and of each `malloc` call, and the client-visible surface state as the
pending/current attached buffer of the video surface.
-/

namespace DrmprimeWayland

/-- `AV_DRM_MAX_PLANES` from libavutil/hwcontext_drm.h. -/
def AV_DRM_MAX_PLANES : Nat := 4

/-- One plane of an `AVDRMLayerDescriptor`: index into the descriptor's
object table, byte offset and pitch (both `ptrdiff_t` in C). -/
structure AVDRMPlaneDescriptor where
  object_index : Nat
  offset : Int
  pitch : Int
deriving Repr, DecidableEq, Inhabited

/-- One entry of the descriptor's object table; the driver only reads `fd`. -/
structure AVDRMObjectDescriptor where
  fd : Int
  size : Nat
  format_modifier : Nat
deriving Repr, DecidableEq, Inhabited

/-- One layer: DRM fourcc `format`, declared plane count `nb_planes`, and the
fixed-size plane array (modelled as a list read with a zeroed default, as the
C array slots beyond `nb_planes` are still readable). -/
structure AVDRMLayerDescriptor where
  format : Nat
  nb_planes : Nat
  planes : List AVDRMPlaneDescriptor
deriving Repr, DecidableEq, Inhabited

/-- The frame descriptor found behind `hw_image->planes[0]`. -/
structure AVDRMFrameDescriptor where
  nb_objects : Nat
  objects : List AVDRMObjectDescriptor
  nb_layers : Nat
  layers : List AVDRMLayerDescriptor
deriving Repr, DecidableEq, Inhabited

/-- `struct mp_rect` (int coordinates). -/
structure mp_rect where
  x0 : Int
  y0 : Int
  x1 : Int
  y1 : Int
deriving Repr, DecidableEq, Inhabited

/-- The part of `struct mp_image` the driver touches: `planes[0]`, which for
IMGFMT_DRMPRIME either points at an `AVDRMFrameDescriptor` or is NULL. -/
structure mp_image where
  planes0 : Option AVDRMFrameDescriptor
deriving Repr, DecidableEq, Inhabited

/-- Opaque `wl_buffer` handle delivered by the compositor. -/
abbrev Buffer := Nat

/-- A Wayland request issued by the driver, as recorded on the trace. -/
inductive WlReq where
  | create_params
  | add (fd : Int) (plane_idx : Nat) (offset : Int) (pitch : Int)
        (mod_hi : Nat) (mod_lo : Nat)
  | create (width : Int) (height : Int) (format : Nat) (req_flags : Nat)
  | roundtrip
  | attach (buf : Option Buffer)
  | commit
  | surface_destroy (h : Nat)
  | subsurface_destroy (h : Nat)
  | place_below
deriving Repr, DecidableEq, Inhabited

/-- Oracle for the driver's environment: `reply k` is the buffer delivered by
the server's `created`/`failed` event during the `k`-th buffer-creation
roundtrip (`none` models `param_create_failed`), and `mallocOk k` is whether
the `k`-th `malloc` of a `dmabuf_frame` succeeds. -/
structure Server where
  reply : Nat → Option Buffer
  mallocOk : Nat → Bool

/-- Client-visible attach state of the video `wl_surface`: `pending` is set by
`wl_surface_attach`, `current` is updated from `pending` at
`wl_surface_commit`. -/
structure SurfaceState where
  pending : Option Buffer
  current : Option Buffer
deriving Repr, DecidableEq, Inhabited

/-- Driver-side state threaded through a hand-off: the video surface's attach
state, the number of buffer-creation roundtrips and mallocs performed so far
(indices into the `Server` oracles), and the protocol request trace. -/
structure PrivState where
  surface : SurfaceState
  rt : Nat
  mallocs : Nat
  trace : List WlReq
deriving Repr, DecidableEq, Inhabited

/-- `wl_surface_attach(p->video_surface, b, 0, 0)`. -/
def wl_surface_attach (s : PrivState) (b : Option Buffer) : PrivState :=
  { s with surface := { s.surface with pending := b },
           trace := s.trace ++ [WlReq.attach b] }

/-- `wl_surface_commit(p->video_surface)`. -/
def wl_surface_commit (s : PrivState) : PrivState :=
  { s with surface := { s.surface with current := s.surface.pending },
           trace := s.trace ++ [WlReq.commit] }

/-- The constant `uint64_t modifier = 0` of `overlay_frame`. -/
def modifier : Nat := 0

/-- The constant `uint32_t flags = 0` of `overlay_frame`. -/
def req_flags : Nat := 0

/-- The plane loop of `overlay_frame` (lines 128-139): for each of the
`AV_DRM_MAX_PLANES` plane slots of `layer`, look up the plane's object fd and,
when both the fd and the pitch are non-zero, issue
`zwp_linux_buffer_params_v1_add`. -/
def planeAdds (desc : AVDRMFrameDescriptor) (layer : AVDRMLayerDescriptor) :
    List WlReq :=
  (List.range AV_DRM_MAX_PLANES).filterMap (fun plane =>
    let pl := layer.planes.getD plane default
    let fd := (desc.objects.getD pl.object_index default).fd
    if fd ≠ 0 ∧ pl.pitch ≠ 0 then
      some (WlReq.add fd plane pl.offset pl.pitch
              (modifier >>> 32) (modifier &&& 0xffffffff))
    else
      none)

/-- The layer loop of `overlay_frame` (lines 123-167).  Each iteration
creates a params object, adds the valid planes, mallocs a `dmabuf_frame`
(failure: `ret = -1; goto fail`), submits `zwp_linux_buffer_params_v1_create`
at the source crop rectangle's size, blocks in `wl_display_roundtrip`, and on
a `created` event attaches and commits the new buffer; on a `failed` event it
sets `ret = -1` and jumps to `fail`.  Returns the final state and the C
return value. -/
def layerLoop (srv : Server) (desc : AVDRMFrameDescriptor) (src : mp_rect) :
    List AVDRMLayerDescriptor → PrivState → PrivState × Int
  | [], s => (s, 0)
  | layer :: rest, s =>
    let s1 : PrivState := { s with trace := s.trace ++ [WlReq.create_params] }
    let s2 : PrivState := { s1 with trace := s1.trace ++ planeAdds desc layer }
    if srv.mallocOk s2.mallocs then
      let s3 : PrivState := { s2 with mallocs := s2.mallocs + 1 }
      let s4 : PrivState :=
        { s3 with
          trace := s3.trace ++
            [WlReq.create (src.x1 - src.x0) (src.y1 - src.y0)
               layer.format req_flags,
             WlReq.roundtrip],
          rt := s3.rt + 1 }
      match srv.reply s3.rt with
      | some buf => layerLoop srv desc src rest
          (wl_surface_commit (wl_surface_attach s4 (some buf)))
      | none => (s4, -1)
    else
      ({ s2 with mallocs := s2.mallocs + 1 }, -1)

/-- The layers actually visited by `for (l = 0; l < desc->nb_layers; l++)`,
reading `desc->layers[l]`. -/
def layersOf (desc : AVDRMFrameDescriptor) : List AVDRMLayerDescriptor :=
  (List.range desc.nb_layers).map (fun l => desc.layers.getD l default)

/-- `overlay_frame` (lines 106-182).  `hw_image = none` models a NULL
`mp_image *`; a present image carries the frame-descriptor pointer of its
`planes[0]`.  `dst` and `newframe` are accepted but never read, as in the C
source. -/
def overlay_frame (srv : Server) (hw_image : Option mp_image)
    (src dst : mp_rect) (newframe : Bool) (s : PrivState) : PrivState × Int :=
  match hw_image with
  | some img =>
    match img.planes0 with
    | some desc => layerLoop srv desc src (layersOf desc) s
    | none => (s, 0)
  | none => (wl_surface_commit (wl_surface_attach s none), 0)

/-! ### Lifecycle: `init` / `uninit`

`uninit` (lines 184-196) destroys the video surface and subsurface when the
corresponding `priv` pointers are non-NULL and then round-trips on
`p->wayland_params->display`.  We model protocol-object liveness explicitly
(`World.live`), so that destroying a handle that is no longer live — a
protocol error / use-after-free in the real client library — and
dereferencing a NULL `wayland_params` both surface as `none` (undefined
behaviour). -/

/-- The `priv` fields relevant to init/teardown: whether `wayland_params` is
a non-NULL pointer, and the surface/subsurface pointers (`none` = NULL).
Note `uninit` never resets these fields. -/
structure WlPriv where
  wayland_params : Bool
  video_surface : Option Nat
  video_subsurface : Option Nat
deriving Repr, DecidableEq, Inhabited

/-- The set of currently live protocol object handles. -/
structure World where
  live : List Nat
deriving Repr, DecidableEq, Inhabited

/-- Destroy a protocol object: removing a handle that is not live is
undefined behaviour (`none`). -/
def destroyObj (w : World) (h : Nat) : Option World :=
  if h ∈ w.live then some { live := w.live.erase h } else none

/-- `uninit` (lines 184-196): conditionally destroy `p->video_surface` and
`p->video_subsurface`, then `wl_display_roundtrip(p->wayland_params->display)`
— which dereferences `wayland_params`, hence `none` when it is NULL.  The
returned `WlPriv` is unchanged: the C code does not clear the pointers. -/
def uninit (p : WlPriv) (w : World) : Option (WlPriv × World × List WlReq) :=
  let step1 : Option (World × List WlReq) :=
    match p.video_surface with
    | some sh => (destroyObj w sh).map (fun w' => (w', [WlReq.surface_destroy sh]))
    | none => some (w, [])
  match step1 with
  | none => none
  | some (w1, t1) =>
    let step2 : Option (World × List WlReq) :=
      match p.video_subsurface with
      | some ssh =>
          (destroyObj w1 ssh).map
            (fun w' => (w', t1 ++ [WlReq.subsurface_destroy ssh]))
      | none => some (w1, t1)
    match step2 with
    | none => none
    | some (w2, t2) =>
        if p.wayland_params then some (p, w2, t2 ++ [WlReq.roundtrip])
        else none

/-- Environment oracle for `init`: whether `mpgl_get_native_display` yields
the interop parameters, and the results of `wl_compositor_create_surface`
and `wl_subcompositor_get_subsurface` (`none` = the call returned NULL). -/
structure InitEnv where
  interop_available : Bool
  create_surface : Option Nat
  get_subsurface : Option Nat
deriving Repr, DecidableEq, Inhabited

/-- `init` (lines 236-274): fetch the interop params (on failure `goto err`,
which calls `uninit` — with `p->wayland_params` NULL); otherwise perform the
registry-discovery roundtrip, create the video surface and subsurface (each
failure goes through `uninit`), and finally place the subsurface below the
host surface.  Returns the final `priv`, world, C return value and request
trace, or `none` when the path hits undefined behaviour. -/
def init (env : InitEnv) (p0 : WlPriv) (w : World) :
    Option (WlPriv × World × Int × List WlReq) :=
  let p : WlPriv := { p0 with wayland_params := env.interop_available }
  if env.interop_available then
    match env.create_surface with
    | none =>
      match uninit p w with
      | some (p', w', t) => some (p', w', -1, WlReq.roundtrip :: t)
      | none => none
    | some sh =>
      let w1 : World := { live := sh :: w.live }
      let p1 : WlPriv := { p with video_surface := some sh }
      match env.get_subsurface with
      | none =>
        match uninit p1 w1 with
        | some (p', w', t) => some (p', w', -1, WlReq.roundtrip :: t)
        | none => none
      | some ssh =>
        let w2 : World := { live := ssh :: w1.live }
        let p2 : WlPriv := { p1 with video_subsurface := some ssh }
        some (p2, w2, 0, [WlReq.roundtrip, WlReq.place_below])
  else
    match uninit p w with
    | some (p', w', t) => some (p', w', -1, t)
    | none => none

/-- Two successive calls to `uninit` on the same `priv`, as in the claim
"teardown called twice in succession": the second call starts from the
`priv` and world the first call left behind. -/
def uninitTwice (p : WlPriv) (w : World) :
    Option (WlPriv × World × List WlReq) :=
  match uninit p w with
  | none => none
  | some (p', w', t1) =>
    match uninit p' w' with
    | none => none
    | some (p'', w'', t2) => some (p'', w'', t1 ++ t2)

/-! ### Helper lemmas about the plane loop -/

/-- Membership characterization of the plane loop's `add` requests. -/
lemma mem_planeAdds (desc : AVDRMFrameDescriptor) (layer : AVDRMLayerDescriptor)
    (e : WlReq) :
    e ∈ planeAdds desc layer ↔
      ∃ plane, plane < AV_DRM_MAX_PLANES ∧
        (desc.objects.getD (layer.planes.getD plane default).object_index default).fd ≠ 0 ∧
        (layer.planes.getD plane default).pitch ≠ 0 ∧
        e = WlReq.add
              (desc.objects.getD (layer.planes.getD plane default).object_index default).fd
              plane
              (layer.planes.getD plane default).offset
              (layer.planes.getD plane default).pitch
              (modifier >>> 32) (modifier &&& 0xffffffff) := by
  simp only [planeAdds, List.mem_filterMap, List.mem_range]
  constructor
  · rintro ⟨plane, hp, hf⟩
    by_cases hc :
        (desc.objects.getD (layer.planes.getD plane default).object_index default).fd ≠ 0 ∧
          (layer.planes.getD plane default).pitch ≠ 0
    · rw [if_pos hc] at hf
      exact ⟨plane, hp, hc.1, hc.2, (Option.some_inj.mp hf).symm⟩
    · rw [if_neg hc] at hf
      cases hf
  · rintro ⟨plane, hp, hfd, hpt, rfl⟩
    exact ⟨plane, hp, by rw [if_pos ⟨hfd, hpt⟩]⟩

/-- Every entry emitted by the plane loop is an `add` request, so in
particular no `roundtrip` hides inside it. -/
lemma roundtrip_not_mem_planeAdds (desc : AVDRMFrameDescriptor)
    (layer : AVDRMLayerDescriptor) : WlReq.roundtrip ∉ planeAdds desc layer := by
  intro h
  rcases (mem_planeAdds desc layer _).mp h with ⟨plane, -, -, -, heq⟩
  cases heq

/-! ### Claim theorems (part 1) -/

/-- C4: a plane slot whose object fd is 0 or whose pitch is 0 is never added
to the buffer request's parameters, and every slot with non-zero fd and
non-zero pitch is added (with exactly the fields the code passes). -/
theorem overlay_plane_skip_rule (desc : AVDRMFrameDescriptor)
    (layer : AVDRMLayerDescriptor) (plane : Nat)
    (hp : plane < AV_DRM_MAX_PLANES) :
    (((desc.objects.getD (layer.planes.getD plane default).object_index default).fd = 0 ∨
        (layer.planes.getD plane default).pitch = 0) →
      ∀ fd off pit hi lo, WlReq.add fd plane off pit hi lo ∉ planeAdds desc layer) ∧
    ((desc.objects.getD (layer.planes.getD plane default).object_index default).fd ≠ 0 →
      (layer.planes.getD plane default).pitch ≠ 0 →
      WlReq.add
        (desc.objects.getD (layer.planes.getD plane default).object_index default).fd
        plane (layer.planes.getD plane default).offset
        (layer.planes.getD plane default).pitch
        (modifier >>> 32) (modifier &&& 0xffffffff) ∈ planeAdds desc layer) := by
  constructor
  · rintro hzero fd off pit hi lo hmem
    rcases (mem_planeAdds desc layer _).mp hmem with ⟨plane', -, hfd, hpt, heq⟩
    cases heq
    rcases hzero with h0 | h0
    · exact hfd h0
    · exact hpt h0
  · intro hfd hpt
    exact (mem_planeAdds desc layer _).mpr ⟨plane, hp, hfd, hpt, rfl⟩

/-- Concrete data used by several witnesses: one object with fd 5, one layer
declaring a single plane but with a second valid plane slot. -/
def descW : AVDRMFrameDescriptor :=
  { nb_objects := 1, objects := [{ fd := 5, size := 100, format_modifier := 0 }],
    nb_layers := 1,
    layers := [{ format := 42, nb_planes := 1,
                 planes := [{ object_index := 0, offset := 0, pitch := 1920 },
                            { object_index := 0, offset := 3072000, pitch := 960 },
                            { object_index := 0, offset := 0, pitch := 0 }] }] }

/-- The layer of `descW`. -/
def layerW : AVDRMLayerDescriptor := descW.layers.getD 0 default

/-- Witness for C4 at `descW`/`layerW`: slot 1 (fd 5, pitch 960) is added,
and no entry for slot 2 (pitch 0) exists. -/
theorem overlay_plane_skip_rule_witness :
    (2 : Nat) < AV_DRM_MAX_PLANES ∧
    WlReq.add 5 1 3072000 960 (modifier >>> 32) (modifier &&& 0xffffffff) ∈
      planeAdds descW layerW ∧
    WlReq.add 5 2 0 1920 0 0 ∉ planeAdds descW layerW := by
  refine ⟨by decide, ?_, ?_⟩
  · exact (overlay_plane_skip_rule descW layerW 1 (by decide)).2 (by decide) (by decide)
  · exact (overlay_plane_skip_rule descW layerW 2 (by decide)).1 (by decide) 5 0 1920 0 0

/-- C10: the plane loop never reads the layer's declared `nb_planes` — the
emitted requests are unchanged under any reassignment of `nb_planes` — and a
slot at or beyond `nb_planes` is still added whenever its fd and pitch are
non-zero. -/
theorem overlay_plane_scan_fixed_slots (desc : AVDRMFrameDescriptor)
    (layer : AVDRMLayerDescriptor) (m : Nat) :
    planeAdds desc { layer with nb_planes := m } = planeAdds desc layer ∧
    (∀ plane, layer.nb_planes ≤ plane → plane < AV_DRM_MAX_PLANES →
      (desc.objects.getD (layer.planes.getD plane default).object_index default).fd ≠ 0 →
      (layer.planes.getD plane default).pitch ≠ 0 →
      WlReq.add
        (desc.objects.getD (layer.planes.getD plane default).object_index default).fd
        plane (layer.planes.getD plane default).offset
        (layer.planes.getD plane default).pitch
        (modifier >>> 32) (modifier &&& 0xffffffff) ∈ planeAdds desc layer) := by
  constructor
  · rfl
  · intro plane _ hp hfd hpt
    exact (mem_planeAdds desc layer _).mpr ⟨plane, hp, hfd, hpt, rfl⟩

/-- Witness for C10: slot 1 of `layerW` lies beyond its declared
`nb_planes = 1` yet is added, and `nb_planes` does not influence the loop. -/
theorem overlay_plane_scan_fixed_slots_witness :
    planeAdds descW { layerW with nb_planes := 0 } = planeAdds descW layerW ∧
    layerW.nb_planes ≤ 1 ∧
    WlReq.add 5 1 3072000 960 (modifier >>> 32) (modifier &&& 0xffffffff) ∈
      planeAdds descW layerW := by
  refine ⟨(overlay_plane_scan_fixed_slots descW layerW 0).1, by decide, ?_⟩
  exact (overlay_plane_scan_fixed_slots descW layerW 0).2 1 (by decide) (by decide)
    (by decide) (by decide)

/-- C6: a hand-off with a NULL frame attaches a null buffer and commits, so
afterwards no buffer is pending or current, exactly those two requests are
appended, and the call returns 0 — for every prior state. -/
theorem overlay_frame_null_frame (srv : Server) (src dst : mp_rect)
    (newframe : Bool) (s : PrivState) :
    overlay_frame srv none src dst newframe s =
      ({ s with surface := { pending := none, current := none },
                trace := s.trace ++ [WlReq.attach none, WlReq.commit] }, 0) := by
  simp [overlay_frame, wl_surface_attach, wl_surface_commit]

/-- C9: a non-NULL frame whose `planes[0]` descriptor pointer is NULL is a
no-op success: no request is issued, the state is returned unchanged, and
the result is 0. -/
theorem overlay_frame_null_descriptor (srv : Server) (img : mp_image)
    (src dst : mp_rect) (newframe : Bool) (s : PrivState)
    (h : img.planes0 = none) :
    overlay_frame srv (some img) src dst newframe s = (s, 0) := by
  simp [overlay_frame, h]

/-- A server oracle that always fails, for witnesses that must not depend on
replies. -/
def srvFail : Server := { reply := fun _ => none, mallocOk := fun _ => true }

/-- The empty initial hand-off state. -/
def s0 : PrivState :=
  { surface := { pending := none, current := none }, rt := 0, mallocs := 0,
    trace := [] }

/-- Witness for C9 at a concrete image with a NULL descriptor pointer. -/
theorem overlay_frame_null_descriptor_witness :
    (mp_image.mk none).planes0 = none ∧
    overlay_frame srvFail (some (mp_image.mk none)) ⟨0, 0, 4, 4⟩ ⟨0, 0, 4, 4⟩
      true s0 = (s0, 0) := by
  exact ⟨rfl, overlay_frame_null_descriptor srvFail (mp_image.mk none)
    ⟨0, 0, 4, 4⟩ ⟨0, 0, 4, 4⟩ true s0 rfl⟩

/-- C2 (code bug): after a first `uninit` destroys the surface (handle 1) and
subsurface (handle 2), the `priv` pointers are *not* cleared, so a second
`uninit` re-issues destroy on the dead handle — a double-destroy, which the
model flags as undefined behaviour (`none`).  Only when the objects were
never created is the double call harmless (third conjunct). -/
theorem uninit_twice_double_destroy :
    uninit ⟨true, some 1, some 2⟩ ⟨[1, 2]⟩ =
      some (⟨true, some 1, some 2⟩, ⟨[]⟩,
        [WlReq.surface_destroy 1, WlReq.subsurface_destroy 2, WlReq.roundtrip]) ∧
    uninitTwice ⟨true, some 1, some 2⟩ ⟨[1, 2]⟩ = none ∧
    uninitTwice ⟨true, none, none⟩ ⟨[]⟩ =
      some (⟨true, none, none⟩, ⟨[]⟩, [WlReq.roundtrip, WlReq.roundtrip]) := by
  decide

/-- C3 (code bug): when the interop parameters are unavailable, `init`'s
error path runs `uninit`, which dereferences the NULL `wayland_params`
(modelled as `none`: a crash, not a clean -1).  The two creation-failure
paths do return -1 with zero live surface/subsurface objects. -/
theorem init_failure_behaviour :
    init ⟨false, some 10, some 11⟩ ⟨false, none, none⟩ ⟨[]⟩ = none ∧
    init ⟨true, none, none⟩ ⟨false, none, none⟩ ⟨[]⟩ =
      some (⟨true, none, none⟩, ⟨[]⟩, -1, [WlReq.roundtrip, WlReq.roundtrip]) ∧
    init ⟨true, some 5, none⟩ ⟨false, none, none⟩ ⟨[]⟩ =
      some (⟨true, some 5, none⟩, ⟨[]⟩, -1,
        [WlReq.roundtrip, WlReq.surface_destroy 5, WlReq.roundtrip]) := by
  exact ⟨rfl, rfl, rfl⟩

/-! ### The all-success run of the layer loop -/

/-- The request trace the layer loop emits when every malloc succeeds and the
server acknowledges every buffer creation: per layer, a params creation, the
plane adds, the sized creation request, the blocking roundtrip, and the
attach/commit of the delivered buffer. -/
def successTrace (srv : Server) (desc : AVDRMFrameDescriptor) (src : mp_rect)
    (rt0 : Nat) : List AVDRMLayerDescriptor → List WlReq
  | [] => []
  | layer :: rest =>
    WlReq.create_params ::
      (planeAdds desc layer ++
        (WlReq.create (src.x1 - src.x0) (src.y1 - src.y0) layer.format req_flags ::
         WlReq.roundtrip :: WlReq.attach (srv.reply rt0) :: WlReq.commit ::
         successTrace srv desc src (rt0 + 1) rest))

/-- Characterization of `layerLoop` when every malloc and every buffer
creation on the way succeeds: result 0, one roundtrip per layer, the trace
grows by `successTrace`, and (for a non-empty layer list) the surface holds
the buffer delivered for the last layer. -/
lemma layerLoop_success (srv : Server) (desc : AVDRMFrameDescriptor)
    (src : mp_rect) :
    ∀ (layers : List AVDRMLayerDescriptor) (s : PrivState),
      (∀ k, k < layers.length → srv.mallocOk (s.mallocs + k) = true) →
      (∀ k, k < layers.length → (srv.reply (s.rt + k)).isSome) →
      layerLoop srv desc src layers s =
        ({ surface :=
             match layers with
             | [] => s.surface
             | _ :: _ =>
               { pending := srv.reply (s.rt + layers.length - 1),
                 current := srv.reply (s.rt + layers.length - 1) },
           rt := s.rt + layers.length,
           mallocs := s.mallocs + layers.length,
           trace := s.trace ++ successTrace srv desc src s.rt layers }, 0) := by
  intro layers
  induction layers with
  | nil =>
    intro s _ _
    simp [layerLoop, successTrace]
  | cons layer rest ih =>
    intro s hm hr
    have hm0 : srv.mallocOk s.mallocs = true := by
      have := hm 0 (by simp)
      simpa using this
    have hr0 : (srv.reply s.rt).isSome := by
      have := hr 0 (by simp)
      simpa using this
    obtain ⟨b, hb⟩ := Option.isSome_iff_exists.mp hr0
    simp only [layerLoop, hm0, if_true, hb]
    rw [ih]
    · have hlen : rest.length + 1 = (layer :: rest).length := rfl
      cases rest with
      | nil =>
        simp [successTrace, wl_surface_attach, wl_surface_commit, hb,
          List.append_assoc]
      | cons layer2 rest2 =>
        simp only [successTrace, wl_surface_attach, wl_surface_commit,
          Prod.mk.injEq, PrivState.mk.injEq, List.length_cons,
          List.append_assoc, List.cons_append, List.nil_append,
          List.singleton_append]
        refine ⟨⟨?_, by omega, by omega, ?_⟩, trivial⟩
        · congr 2 <;> omega
        · simp [hb]
    · intro k hk
      have h2 := hm (k + 1) (by simpa using Nat.succ_lt_succ hk)
      have heq : s.mallocs + (k + 1) =
          (wl_surface_commit (wl_surface_attach
            { s with
              trace := (s.trace ++ [WlReq.create_params]) ++ planeAdds desc layer ++
                [WlReq.create (src.x1 - src.x0) (src.y1 - src.y0) layer.format
                   req_flags, WlReq.roundtrip],
              rt := s.rt + 1, mallocs := s.mallocs + 1 } (some b))).mallocs + k := by
        simp [wl_surface_attach, wl_surface_commit]
        omega
      rw [← heq]
      exact h2
    · intro k hk
      have h2 := hr (k + 1) (by simpa using Nat.succ_lt_succ hk)
      have heq : s.rt + (k + 1) =
          (wl_surface_commit (wl_surface_attach
            { s with
              trace := (s.trace ++ [WlReq.create_params]) ++ planeAdds desc layer ++
                [WlReq.create (src.x1 - src.x0) (src.y1 - src.y0) layer.format
                   req_flags, WlReq.roundtrip],
              rt := s.rt + 1, mallocs := s.mallocs + 1 } (some b))).rt + k := by
        simp [wl_surface_attach, wl_surface_commit]
        omega
      rw [← heq]
      exact h2

/-! ### The first failing buffer creation -/

/-- Characterization of `layerLoop` when the server first rejects the buffer
creation of layer `l` (mallocs up to there succeed): the loop returns -1,
and the surface is unchanged exactly when `l = 0`; for a later `l` it holds
the buffer delivered for layer `l - 1`. -/
lemma layerLoop_firstFail (srv : Server) (desc : AVDRMFrameDescriptor)
    (src : mp_rect) :
    ∀ (layers : List AVDRMLayerDescriptor) (l : Nat) (s : PrivState),
      l < layers.length →
      (∀ k, k ≤ l → srv.mallocOk (s.mallocs + k) = true) →
      (∀ k, k < l → (srv.reply (s.rt + k)).isSome) →
      srv.reply (s.rt + l) = none →
      (layerLoop srv desc src layers s).2 = -1 ∧
      (layerLoop srv desc src layers s).1.surface =
        (match l with
         | 0 => s.surface
         | _ + 1 =>
           { pending := srv.reply (s.rt + l - 1),
             current := srv.reply (s.rt + l - 1) }) := by
  intro layers
  induction layers with
  | nil =>
    intro l s hl _ _ _
    simp at hl
  | cons layer rest ih =>
    intro l s hl hm hr hf
    have hm0 : srv.mallocOk s.mallocs = true := by
      have := hm 0 (Nat.zero_le l)
      simpa using this
    cases l with
    | zero =>
      have hf0 : srv.reply s.rt = none := by simpa using hf
      simp [layerLoop, hm0, hf0]
    | succ l' =>
      have hr0 : (srv.reply s.rt).isSome := by
        have := hr 0 (Nat.succ_pos l')
        simpa using this
      obtain ⟨b, hb⟩ := Option.isSome_iff_exists.mp hr0
      simp only [layerLoop, hm0, if_true, hb]
      have hout := ih l'
        (wl_surface_commit (wl_surface_attach
          { s with
            trace := (s.trace ++ [WlReq.create_params]) ++ planeAdds desc layer ++
              [WlReq.create (src.x1 - src.x0) (src.y1 - src.y0) layer.format
                 req_flags, WlReq.roundtrip],
            rt := s.rt + 1, mallocs := s.mallocs + 1 } (some b)))
        (by simpa using Nat.lt_of_succ_lt_succ hl)
        (by
          intro k hk
          have h2 := hm (k + 1) (Nat.succ_le_succ hk)
          have heq : s.mallocs + (k + 1) = s.mallocs + 1 + k := by omega
          rw [heq] at h2
          simpa [wl_surface_attach, wl_surface_commit] using h2)
        (by
          intro k hk
          have h2 := hr (k + 1) (Nat.succ_lt_succ hk)
          have heq : s.rt + (k + 1) = s.rt + 1 + k := by omega
          rw [heq] at h2
          simpa [wl_surface_attach, wl_surface_commit] using h2)
        (by
          have heq : s.rt + (l' + 1) = s.rt + 1 + l' := by omega
          rw [heq] at hf
          simpa [wl_surface_attach, wl_surface_commit] using hf)
      refine ⟨hout.1, ?_⟩
      rw [hout.2]
      cases l' with
      | zero =>
        simp [wl_surface_attach, wl_surface_commit, hb]
      | succ l'' =>
        simp only [wl_surface_attach, wl_surface_commit]
        congr 2 <;> omega

/-- The number of layers the loop visits. -/
lemma layersOf_length (desc : AVDRMFrameDescriptor) :
    (layersOf desc).length = desc.nb_layers := by
  simp [layersOf]

/-- The all-success trace holds exactly one roundtrip per layer. -/
lemma successTrace_count_roundtrip (srv : Server) (desc : AVDRMFrameDescriptor)
    (src : mp_rect) :
    ∀ (rt0 : Nat) (layers : List AVDRMLayerDescriptor),
      (successTrace srv desc src rt0 layers).count WlReq.roundtrip =
        layers.length := by
  intro rt0 layers
  induction layers generalizing rt0 with
  | nil => simp [successTrace]
  | cons layer rest ih =>
    have hpa : (planeAdds desc layer).count WlReq.roundtrip = 0 :=
      List.count_eq_zero.mpr (roundtrip_not_mem_planeAdds desc layer)
    simp [successTrace, List.count_append, List.count_cons, hpa, ih]

/-- C1 (amended): when buffer creation first fails at layer `l` of a present
frame (all mallocs up to there succeeding), `overlay_frame` returns -1; the
video surface's attach state is unchanged only when the failure hits the
first layer (`l = 0`) — for a later layer, the buffer created for layer
`l - 1` has already been attached and committed and remains so. -/
theorem overlay_frame_buffer_failure (srv : Server) (img : mp_image)
    (desc : AVDRMFrameDescriptor) (src dst : mp_rect) (newframe : Bool)
    (s : PrivState) (l : Nat)
    (hdesc : img.planes0 = some desc)
    (hl : l < desc.nb_layers)
    (hm : ∀ k, k ≤ l → srv.mallocOk (s.mallocs + k) = true)
    (hr : ∀ k, k < l → (srv.reply (s.rt + k)).isSome)
    (hf : srv.reply (s.rt + l) = none) :
    (overlay_frame srv (some img) src dst newframe s).2 = -1 ∧
    (l = 0 →
      (overlay_frame srv (some img) src dst newframe s).1.surface = s.surface) ∧
    (0 < l →
      (overlay_frame srv (some img) src dst newframe s).1.surface =
        { pending := srv.reply (s.rt + l - 1),
          current := srv.reply (s.rt + l - 1) }) := by
  have hl' : l < (layersOf desc).length := by rw [layersOf_length]; exact hl
  have h := layerLoop_firstFail srv desc src (layersOf desc) l s hl' hm hr hf
  simp only [overlay_frame, hdesc]
  refine ⟨h.1, ?_, ?_⟩
  · intro h0
    subst h0
    simpa using h.2
  · intro h0
    cases l with
    | zero => exact absurd h0 (by simp)
    | succ l' => simpa using h.2

/-- Server oracle for the C1 counterexample: the first buffer creation is
acknowledged with buffer 7, every later one fails; malloc always works. -/
def srvC1 : Server :=
  { reply := fun k => if k = 0 then some 7 else none,
    mallocOk := fun _ => true }

/-- A two-layer frame descriptor (no valid planes are needed to trigger the
per-layer creation roundtrips). -/
def descC1 : AVDRMFrameDescriptor :=
  { nb_objects := 0, objects := [], nb_layers := 2,
    layers := [{ format := 42, nb_planes := 0, planes := [] },
               { format := 42, nb_planes := 0, planes := [] }] }

/-- The image wrapping `descC1`. -/
def imgC1 : mp_image := { planes0 := some descC1 }

/-- A 1920x1080 rectangle at the origin. -/
def rectC1 : mp_rect := { x0 := 0, y0 := 0, x1 := 1920, y1 := 1080 }

/-- Counterexample to C1 as stated: with a two-layer descriptor whose second
buffer creation fails, `overlay_frame` does return -1, but the video
surface's attached-buffer state is *not* unchanged — layer 0's buffer 7 was
attached and committed before the failure and stays attached. -/
theorem overlay_frame_multilayer_attach_left_behind :
    (overlay_frame srvC1 (some imgC1) rectC1 rectC1 true s0).2 = -1 ∧
    s0.surface.current = none ∧
    (overlay_frame srvC1 (some imgC1) rectC1 rectC1 true s0).1.surface.current =
      some 7 := by
  decide

/-- Witness for the amended C1 at the concrete failing-second-layer run. -/
theorem overlay_frame_buffer_failure_witness :
    imgC1.planes0 = some descC1 ∧ 1 < descC1.nb_layers ∧
    srvC1.reply (s0.rt + 1) = none ∧
    (overlay_frame srvC1 (some imgC1) rectC1 rectC1 true s0).2 = -1 ∧
    (overlay_frame srvC1 (some imgC1) rectC1 rectC1 true s0).1.surface =
      { pending := srvC1.reply (s0.rt + 1 - 1),
        current := srvC1.reply (s0.rt + 1 - 1) } := by
  have h := overlay_frame_buffer_failure srvC1 imgC1 descC1 rectC1 rectC1 true
    s0 1 rfl (by decide) (fun k hk => by interval_cases k <;> decide)
    (fun k hk => by interval_cases k <;> decide) (by decide)
  exact ⟨rfl, by decide, by decide, h.1, h.2.2 (by decide)⟩

/-- Server oracle for the all-success runs: the `k`-th creation roundtrip
delivers buffer `k + 10`; malloc always succeeds. -/
def srvOK : Server :=
  { reply := fun k => some (k + 10), mallocOk := fun _ => true }

/-- C7: when every layer of a present frame succeeds, `overlay_frame`
returns 0, appends exactly the per-layer request segments (params creation,
plane adds, sized create, one roundtrip, then attach and commit of the
delivered buffer, in layer order), performs exactly `nb_layers` roundtrips,
and leaves the buffer delivered for the last layer current on the video
surface. -/
theorem overlay_frame_all_layers_success (srv : Server) (img : mp_image)
    (desc : AVDRMFrameDescriptor) (src dst : mp_rect) (newframe : Bool)
    (s : PrivState)
    (hdesc : img.planes0 = some desc)
    (hm : ∀ k, k < desc.nb_layers → srv.mallocOk (s.mallocs + k) = true)
    (hr : ∀ k, k < desc.nb_layers → (srv.reply (s.rt + k)).isSome) :
    (overlay_frame srv (some img) src dst newframe s).2 = 0 ∧
    (overlay_frame srv (some img) src dst newframe s).1.trace =
      s.trace ++ successTrace srv desc src s.rt (layersOf desc) ∧
    ((overlay_frame srv (some img) src dst newframe s).1.trace.count
        WlReq.roundtrip =
      s.trace.count WlReq.roundtrip + desc.nb_layers) ∧
    (0 < desc.nb_layers →
      (overlay_frame srv (some img) src dst newframe s).1.surface.current =
        srv.reply (s.rt + desc.nb_layers - 1)) := by
  have hm' : ∀ k, k < (layersOf desc).length →
      srv.mallocOk (s.mallocs + k) = true := by
    intro k hk
    exact hm k (by rwa [layersOf_length] at hk)
  have hr' : ∀ k, k < (layersOf desc).length →
      (srv.reply (s.rt + k)).isSome := by
    intro k hk
    exact hr k (by rwa [layersOf_length] at hk)
  have h := layerLoop_success srv desc src (layersOf desc) s hm' hr'
  simp only [overlay_frame, hdesc, h]
  refine ⟨trivial, trivial, ?_, ?_⟩
  · rw [List.count_append, successTrace_count_roundtrip, layersOf_length]
  · intro hpos
    have hne : layersOf desc ≠ [] := by
      intro hnil
      rw [← layersOf_length desc, hnil] at hpos
      simp at hpos
    cases hlo : layersOf desc with
    | nil => exact absurd hlo hne
    | cons a as =>
      simp only [hlo]
      rw [← layersOf_length desc, hlo]

/-! ### Shape of the issued requests (arbitrary server behaviour) -/

/-- The shape every request issued by the layer loop must have: creation
requests use the source crop width/height, a zero flags word and one of the
given layers' formats; plane adds carry zero modifier halves. -/
def reqShape (src : mp_rect) (layers : List AVDRMLayerDescriptor) :
    WlReq → Prop
  | WlReq.create w h f fl =>
      w = src.x1 - src.x0 ∧ h = src.y1 - src.y0 ∧ fl = 0 ∧
        ∃ layer ∈ layers, f = layer.format
  | WlReq.add _ _ _ _ hi lo => hi = 0 ∧ lo = 0
  | _ => True

/-- `reqShape` only grows when more layers are allowed. -/
lemma reqShape_mono (src : mp_rect) (layer : AVDRMLayerDescriptor)
    (layers : List AVDRMLayerDescriptor) (e : WlReq)
    (h : reqShape src layers e) : reqShape src (layer :: layers) e := by
  cases e <;> try trivial
  case create w hh f fl =>
    obtain ⟨h1, h2, h3, l, hl, h4⟩ := h
    exact ⟨h1, h2, h3, l, List.mem_cons_of_mem _ hl, h4⟩

/-- Every plane-add request satisfies `reqShape` (its modifier halves are the
two halves of the constant zero modifier). -/
lemma reqShape_planeAdds (src : mp_rect)
    (layers : List AVDRMLayerDescriptor) (desc : AVDRMFrameDescriptor)
    (layer : AVDRMLayerDescriptor) (e : WlReq)
    (he : e ∈ planeAdds desc layer) : reqShape src layers e := by
  rcases (mem_planeAdds desc layer e).mp he with ⟨p, -, -, -, rfl⟩
  exact ⟨by decide, by decide⟩

/-- Trace invariant of the layer loop, for every server behaviour: any entry
of the final trace is either an old entry or has the required shape. -/
lemma layerLoop_trace_shape (srv : Server) (desc : AVDRMFrameDescriptor)
    (src : mp_rect) :
    ∀ (layers : List AVDRMLayerDescriptor) (s : PrivState) (e : WlReq),
      e ∈ (layerLoop srv desc src layers s).1.trace →
      e ∈ s.trace ∨ reqShape src layers e := by
  intro layers
  induction layers with
  | nil =>
    intro s e he
    exact Or.inl (by simpa [layerLoop] using he)
  | cons layer rest ih =>
    intro s e he
    have hcreate : reqShape src (layer :: rest)
        (WlReq.create (src.x1 - src.x0) (src.y1 - src.y0) layer.format
          req_flags) :=
      ⟨rfl, rfl, rfl, layer, List.mem_cons_self layer rest, rfl⟩
    simp only [layerLoop] at he
    split at he
    · split at he
      · rcases ih _ e he with h | h
        · simp only [wl_surface_attach, wl_surface_commit, List.append_assoc,
            List.mem_append, List.mem_cons, List.mem_singleton,
            List.not_mem_nil, or_false, or_assoc] at h
          rcases h with h | h | h | h | h | h | h
          · exact Or.inl h
          · subst h; exact Or.inr trivial
          · exact Or.inr (reqShape_planeAdds src (layer :: rest) desc layer e h)
          · subst h; exact Or.inr hcreate
          · subst h; exact Or.inr trivial
          · subst h; exact Or.inr trivial
          · subst h; exact Or.inr trivial
        · exact Or.inr (reqShape_mono src layer rest e h)
      · simp only [List.append_assoc, List.mem_append, List.mem_cons,
          List.mem_singleton, List.not_mem_nil, or_false, or_assoc] at he
        rcases he with h | h | h | h | h
        · exact Or.inl h
        · subst h; exact Or.inr trivial
        · exact Or.inr (reqShape_planeAdds src (layer :: rest) desc layer e h)
        · subst h; exact Or.inr hcreate
        · subst h; exact Or.inr trivial
    · simp only [List.append_assoc, List.mem_append, List.mem_cons,
        List.mem_singleton, List.not_mem_nil, or_false, or_assoc] at he
      rcases he with h | h | h
      · exact Or.inl h
      · subst h; exact Or.inr trivial
      · exact Or.inr (reqShape_planeAdds src (layer :: rest) desc layer e h)

/-- `reqShape` phrased against the frame descriptor itself: the format of a
creation request is the format of one of the descriptor's first `nb_layers`
layers. -/
def reqShapeDesc (src : mp_rect) (desc : AVDRMFrameDescriptor) :
    WlReq → Prop
  | WlReq.create w h f fl =>
      w = src.x1 - src.x0 ∧ h = src.y1 - src.y0 ∧ fl = 0 ∧
        ∃ l, l < desc.nb_layers ∧ f = (desc.layers.getD l default).format
  | WlReq.add _ _ _ _ hi lo => hi = 0 ∧ lo = 0
  | _ => True

/-- Transport `reqShape` over the visited layers to `reqShapeDesc`. -/
lemma reqShape_layersOf (src : mp_rect) (desc : AVDRMFrameDescriptor)
    (e : WlReq) (h : reqShape src (layersOf desc) e) :
    reqShapeDesc src desc e := by
  cases e <;> try trivial
  case create w hh f fl =>
    obtain ⟨h1, h2, h3, layer, hl, h4⟩ := h
    simp only [layersOf, List.mem_map, List.mem_range] at hl
    obtain ⟨l, hln, rfl⟩ := hl
    exact ⟨h1, h2, h3, l, hln, h4⟩

/-- C5: in every run of `overlay_frame` on a present frame — whatever the
server replies — every buffer-creation request appended to the trace carries
width `src->x1 - src->x0`, height `src->y1 - src->y0`, a zero flags word and
the format of one of the descriptor's layers, and every added plane carries
modifier halves (0, 0). -/
theorem overlay_request_shape (srv : Server) (img : mp_image)
    (desc : AVDRMFrameDescriptor) (src dst : mp_rect) (newframe : Bool)
    (s : PrivState) (hdesc : img.planes0 = some desc) :
    ∀ e, e ∈ (overlay_frame srv (some img) src dst newframe s).1.trace →
      e ∈ s.trace ∨ reqShapeDesc src desc e := by
  intro e he
  simp only [overlay_frame, hdesc] at he
  rcases layerLoop_trace_shape srv desc src (layersOf desc) s e he with h | h
  · exact Or.inl h
  · exact Or.inr (reqShape_layersOf src desc e h)

/-- The image wrapping `descW`. -/
def imgW : mp_image := { planes0 := some descW }

/-- Witness for C5: in the all-success run on `descW`, the emitted creation
request (1920x1080, format 42, flags 0) indeed satisfies the shape. -/
theorem overlay_request_shape_witness :
    imgW.planes0 = some descW ∧
    WlReq.create 1920 1080 42 0 ∈
      (overlay_frame srvOK (some imgW) rectC1 rectC1 true s0).1.trace ∧
    (WlReq.create 1920 1080 42 0 ∈ s0.trace ∨
      reqShapeDesc rectC1 descW (WlReq.create 1920 1080 42 0)) := by
  refine ⟨rfl, by decide, ?_⟩
  exact overlay_request_shape srvOK imgW descW rectC1 rectC1 true s0 rfl
    (WlReq.create 1920 1080 42 0) (by decide)

/-- Witness for C7 on the single-layer `descW`. -/
theorem overlay_frame_all_layers_success_witness :
    imgW.planes0 = some descW ∧
    (overlay_frame srvOK (some imgW) rectC1 rectC1 true s0).2 = 0 ∧
    (overlay_frame srvOK (some imgW) rectC1 rectC1 true s0).1.trace =
      s0.trace ++ successTrace srvOK descW rectC1 s0.rt (layersOf descW) ∧
    (overlay_frame srvOK (some imgW) rectC1 rectC1 true s0).1.trace.count
        WlReq.roundtrip =
      s0.trace.count WlReq.roundtrip + descW.nb_layers ∧
    (overlay_frame srvOK (some imgW) rectC1 rectC1 true s0).1.surface.current =
      srvOK.reply (s0.rt + descW.nb_layers - 1) := by
  have h := overlay_frame_all_layers_success srvOK imgW descW rectC1 rectC1
    true s0 rfl (by decide) (by decide)
  exact ⟨rfl, h.1, h.2.1, h.2.2.1, h.2.2.2 (by decide)⟩

/-! ### The destination rectangle is never consumed -/

/-- The layer loop reads `src` only through the two side lengths. -/
lemma layerLoop_src_congr (srv : Server) (desc : AVDRMFrameDescriptor)
    (src src' : mp_rect)
    (hw : src.x1 - src.x0 = src'.x1 - src'.x0)
    (hh : src.y1 - src.y0 = src'.y1 - src'.y0) :
    ∀ (layers : List AVDRMLayerDescriptor) (s : PrivState),
      layerLoop srv desc src layers s = layerLoop srv desc src' layers s := by
  intro layers
  induction layers with
  | nil => intro s; rfl
  | cons layer rest ih =>
    intro s
    simp only [layerLoop, hw, hh]
    split
    · split
      · exact ih _
      · rfl
    · rfl

/-- C8: two hand-off calls that agree on the frame, the source rectangle's
side lengths, the server behaviour and the prior state — but differ
arbitrarily in the destination rectangle and in the source rectangle's
position — produce identical results and identical request traces. -/
theorem overlay_frame_dst_unused (srv : Server) (hw_image : Option mp_image)
    (src src' dst dst' : mp_rect) (newframe : Bool) (s : PrivState)
    (hw : src.x1 - src.x0 = src'.x1 - src'.x0)
    (hh : src.y1 - src.y0 = src'.y1 - src'.y0) :
    overlay_frame srv hw_image src dst newframe s =
      overlay_frame srv hw_image src' dst' newframe s := by
  cases hw_image with
  | none => rfl
  | some img =>
    cases himg : img.planes0 with
    | none => simp [overlay_frame, himg]
    | some desc =>
      simp only [overlay_frame, himg]
      exact layerLoop_src_congr srv desc src src' hw hh (layersOf desc) s

/-- Witness for C8: shifting the source rectangle and replacing the
destination rectangle leaves the concrete run unchanged. -/
theorem overlay_frame_dst_unused_witness :
    rectC1.x1 - rectC1.x0 =
      (⟨100, 200, 2020, 1280⟩ : mp_rect).x1 -
        (⟨100, 200, 2020, 1280⟩ : mp_rect).x0 ∧
    rectC1.y1 - rectC1.y0 =
      (⟨100, 200, 2020, 1280⟩ : mp_rect).y1 -
        (⟨100, 200, 2020, 1280⟩ : mp_rect).y0 ∧
    overlay_frame srvOK (some imgW) rectC1 rectC1 true s0 =
      overlay_frame srvOK (some imgW) ⟨100, 200, 2020, 1280⟩ ⟨5, 5, 6, 6⟩
        true s0 := by
  refine ⟨by decide, by decide, ?_⟩
  exact overlay_frame_dst_unused srvOK (some imgW) rectC1
    ⟨100, 200, 2020, 1280⟩ rectC1 ⟨5, 5, 6, 6⟩ true s0 (by decide) (by decide)

end DrmprimeWayland
